import Mathlib

/-!
Verification of the geometric attendance-decision engine of the
Smart-Attendance-and-Tracking repository.

The numeric core of the repository lives in `src/utils/CircleUtils.ts`
(haversine distance, circle-overlap percentage, attendance status, roster
lookup) and `src/unnamed/part_004` (`GeoUtils.determineStatus`, the pure
distance-based decision policy).  JavaScript numbers are modelled at two
levels of fidelity:

* an idealized real-number semantics (`getDistanceInMeters`,
  `calculateCircleOverlap`, ...), faithful to the source line-by-line for
  finite, non-NaN inputs; and
* a NaN-tracking semantics over `Option ℝ` (`getDistanceInMetersJS`,
  `calculateCircleOverlapJS`), where `none` stands for JavaScript `NaN`,
  used for the claims about NaN production and propagation.
-/

open Real

/-- Attendance status returned by `CircleUtils.determineAttendanceStatus`
(source line 68): `'present' | 'proxy'`. -/
inductive AttendanceStatus
  | present
  | proxy
deriving DecidableEq

/-- Status returned by `GeoUtils.determineStatus` (part_004 line 102):
`'present' | 'pending' | 'absent'`. -/
inductive LocStatus
  | present
  | pending
  | absent
deriving DecidableEq

/-- `CircleUtils.deg2rad` (source line 24): `deg * (Math.PI / 180)`. -/
noncomputable def deg2rad (deg : ℝ) : ℝ := deg * (π / 180)

/-- JavaScript `Math.atan2(y, x)` for finite real arguments, by case on the
quadrant; only the branches with `y ≥ 0, x ≥ 0` are reachable from the
haversine code (both arguments are square roots). -/
noncomputable def atan2 (y x : ℝ) : ℝ :=
  if 0 < x then arctan (y / x)
  else if x < 0 ∧ 0 ≤ y then arctan (y / x) + π
  else if x < 0 then arctan (y / x) - π
  else if x = 0 ∧ 0 < y then π / 2
  else if x = 0 ∧ y < 0 then -(π / 2)
  else 0

/-- The haversine intermediate `a` of `CircleUtils.getDistanceInMeters`
(source lines 13-18):
`sin(dLat/2)² + cos(rad lat1) * cos(rad lat2) * sin(dLon/2)²`,
with the source's multiplication order kept. -/
noncomputable def havA (lat1 lon1 lat2 lon2 : ℝ) : ℝ :=
  sin (deg2rad (lat2 - lat1) / 2) * sin (deg2rad (lat2 - lat1) / 2) +
    cos (deg2rad lat1) * cos (deg2rad lat2) *
      sin (deg2rad (lon2 - lon1) / 2) * sin (deg2rad (lon2 - lon1) / 2)

/-- `CircleUtils.getDistanceInMeters` (source lines 3-22): haversine distance
with Earth radius `R = 6371e3`; the source's locals `a` and `c` are `havA`
and the `2 * atan2 (√a) (√(1-a))` term. -/
noncomputable def getDistanceInMeters (lat1 lon1 lat2 lon2 : ℝ) : ℝ :=
  6371000 *
    (2 * atan2 (Real.sqrt (havA lat1 lon1 lat2 lon2))
      (Real.sqrt (1 - havA lat1 lon1 lat2 lon2)))

/-- Branch logic of `CircleUtils.calculateCircleOverlap` (source lines
40-64) as a function of the already-computed center distance: no-overlap
(line 40), full containment (line 45), and the clamped lens formula
(lines 53-64), each transcribed term-for-term. -/
noncomputable def overlapFromDistance (distance radius1 radius2 : ℝ) : ℝ :=
  if distance ≥ radius1 + radius2 then 0
  else if distance ≤ |radius1 - radius2| then
    (π * min radius1 radius2 * min radius1 radius2 / (π * radius2 * radius2)) * 100
  else
    let r1Sq := radius1 * radius1
    let r2Sq := radius2 * radius2
    let dSq := distance * distance
    let area1 := r1Sq * arccos ((dSq + r1Sq - r2Sq) / (2 * distance * radius1))
    let area2 := r2Sq * arccos ((dSq + r2Sq - r1Sq) / (2 * distance * radius2))
    let area3 := 0.5 * Real.sqrt ((-distance + radius1 + radius2) *
      (distance + radius1 - radius2) * (distance - radius1 + radius2) *
      (distance + radius1 + radius2))
    let overlapArea := area1 + area2 - area3
    let circle2Area := π * radius2 * radius2
    max 0 (min 100 (overlapArea / circle2Area * 100))

/-- `CircleUtils.calculateCircleOverlap` (source lines 29-65): compute the
center distance (line 37), then the branch logic of lines 40-64. -/
noncomputable def calculateCircleOverlap
    (center1Lat center1Lon radius1 center2Lat center2Lon radius2 : ℝ) : ℝ :=
  overlapFromDistance (getDistanceInMeters center1Lat center1Lon center2Lat center2Lon)
    radius1 radius2

/-- `CircleUtils.determineAttendanceStatus` (source lines 68-70):
`coveragePercentage >= 50 ? 'present' : 'proxy'`. -/
noncomputable def determineAttendanceStatus (coveragePercentage : ℝ) : AttendanceStatus :=
  if coveragePercentage ≥ 50 then .present else .proxy

/-- The campus SSID literal `'iBUS@MUJ'` of `GeoUtils.determineStatus`
(part_004 lines 115-116). -/
def campusWifi : String := "iBUS@MUJ"

/-- `GeoUtils.determineStatus` (part_004 lines 102-129).  The source's
`threshold` parameter defaults to 30; here it is always passed explicitly. -/
noncomputable def determineStatus (distance : ℝ) (originWifi markedWifi : Option String)
    (threshold : ℝ) : LocStatus :=
  if distance ≤ threshold then .present
  else if originWifi = some campusWifi ∧ markedWifi = some campusWifi ∧ distance ≤ 50 then
    .present
  else if distance > 50 then .absent
  else .pending

/-- Roster entry `{ name, registration_number }` consumed by
`CircleUtils.isStudentInList` / `getStudentName` (source lines 73-93). -/
structure Student where
  name : String
  registration_number : String

/-- JavaScript `s.toLowerCase().trim()` as used on registration numbers;
modelled with per-character lowercasing and whitespace trimming. -/
def normalizeReg (s : String) : String := (s.map Char.toLower).trim

/-- `CircleUtils.isStudentInList` (source lines 73-81): membership by
case-insensitive, whitespace-trimmed comparison of registration numbers. -/
def isStudentInList (studentRegistration : String) (facultyList : List Student) : Bool :=
  facultyList.any fun student =>
    normalizeReg student.registration_number == normalizeReg studentRegistration

/-- `CircleUtils.getStudentName` (source lines 84-93): `find` with the same
normalized comparison, returning the matching student's name or `null`. -/
def getStudentName (studentRegistration : String) (facultyList : List Student) :
    Option String :=
  match facultyList.find? (fun s =>
      normalizeReg s.registration_number == normalizeReg studentRegistration) with
  | some student => some student.name
  | none => none

/-! ### NaN-tracking model of JavaScript numbers

`none` stands for JavaScript `NaN`.  Arithmetic propagates NaN; comparisons
with NaN are `false`; `Math.sqrt` of a negative and `Math.acos` outside
[−1,1] give NaN.  JavaScript division of a nonzero value by 0 gives
±Infinity rather than NaN; in the code paths modelled here every quotient
with a zero denominator either has a zero numerator (giving NaN) or flows
into `Math.acos` (turning ±Infinity into NaN as well), so `jdiv` conflates
that case with NaN. -/

abbrev JNum := Option ℝ

noncomputable def jadd (x y : JNum) : JNum :=
  match x, y with
  | some a, some b => some (a + b)
  | _, _ => none

noncomputable def jsub (x y : JNum) : JNum :=
  match x, y with
  | some a, some b => some (a - b)
  | _, _ => none

noncomputable def jmul (x y : JNum) : JNum :=
  match x, y with
  | some a, some b => some (a * b)
  | _, _ => none

noncomputable def jdiv (x y : JNum) : JNum :=
  match x, y with
  | some a, some b => if b = 0 then none else some (a / b)
  | _, _ => none

noncomputable def jneg (x : JNum) : JNum :=
  match x with
  | some a => some (-a)
  | none => none

noncomputable def jsin (x : JNum) : JNum :=
  match x with
  | some a => some (sin a)
  | none => none

noncomputable def jcos (x : JNum) : JNum :=
  match x with
  | some a => some (cos a)
  | none => none

noncomputable def jabs (x : JNum) : JNum :=
  match x with
  | some a => some |a|
  | none => none

noncomputable def jsqrt (x : JNum) : JNum :=
  match x with
  | some a => if a < 0 then none else some (Real.sqrt a)
  | none => none

noncomputable def jacos (x : JNum) : JNum :=
  match x with
  | some a => if a < -1 ∨ 1 < a then none else some (arccos a)
  | none => none

noncomputable def jatan2 (y x : JNum) : JNum :=
  match y, x with
  | some b, some a => some (atan2 b a)
  | _, _ => none

noncomputable def jmin (x y : JNum) : JNum :=
  match x, y with
  | some a, some b => some (min a b)
  | _, _ => none

noncomputable def jmax (x y : JNum) : JNum :=
  match x, y with
  | some a, some b => some (max a b)
  | _, _ => none

noncomputable def jge (x y : JNum) : Bool :=
  match x, y with
  | some a, some b => if b ≤ a then true else false
  | _, _ => false

noncomputable def jle (x y : JNum) : Bool :=
  match x, y with
  | some a, some b => if a ≤ b then true else false
  | _, _ => false

/-- NaN-tracking version of the haversine intermediate `a` (source lines
13-18), with `deg2rad` inlined as `jmul · (some (π/180))`. -/
noncomputable def havAJS (lat1 lon1 lat2 lon2 : JNum) : JNum :=
  jadd
    (jmul (jsin (jdiv (jmul (jsub lat2 lat1) (some (π / 180))) (some 2)))
      (jsin (jdiv (jmul (jsub lat2 lat1) (some (π / 180))) (some 2))))
    (jmul (jmul (jmul (jcos (jmul lat1 (some (π / 180)))) (jcos (jmul lat2 (some (π / 180)))))
      (jsin (jdiv (jmul (jsub lon2 lon1) (some (π / 180))) (some 2))))
      (jsin (jdiv (jmul (jsub lon2 lon1) (some (π / 180))) (some 2))))

/-- NaN-tracking version of `CircleUtils.getDistanceInMeters` (source
lines 3-22). -/
noncomputable def getDistanceInMetersJS (lat1 lon1 lat2 lon2 : JNum) : JNum :=
  jmul (some 6371000)
    (jmul (some 2) (jatan2 (jsqrt (havAJS lat1 lon1 lat2 lon2))
      (jsqrt (jsub (some 1) (havAJS lat1 lon1 lat2 lon2)))))

/-- NaN-tracking version of the branch logic of
`CircleUtils.calculateCircleOverlap` (source lines 40-64). -/
noncomputable def overlapFromDistanceJS (distance radius1 radius2 : JNum) : JNum :=
  if jge distance (jadd radius1 radius2) then some 0
  else if jle distance (jabs (jsub radius1 radius2)) then
    jmul (jdiv (jmul (jmul (some π) (jmin radius1 radius2)) (jmin radius1 radius2))
      (jmul (jmul (some π) radius2) radius2)) (some 100)
  else
    let r1Sq := jmul radius1 radius1
    let r2Sq := jmul radius2 radius2
    let dSq := jmul distance distance
    let area1 := jmul r1Sq (jacos (jdiv (jsub (jadd dSq r1Sq) r2Sq)
      (jmul (jmul (some 2) distance) radius1)))
    let area2 := jmul r2Sq (jacos (jdiv (jsub (jadd dSq r2Sq) r1Sq)
      (jmul (jmul (some 2) distance) radius2)))
    let area3 := jmul (some 0.5) (jsqrt (jmul (jmul (jmul
      (jadd (jadd (jneg distance) radius1) radius2)
      (jsub (jadd distance radius1) radius2))
      (jadd (jsub distance radius1) radius2))
      (jadd (jadd distance radius1) radius2)))
    let overlapArea := jsub (jadd area1 area2) area3
    let circle2Area := jmul (jmul (some π) radius2) radius2
    jmax (some 0) (jmin (some 100) (jmul (jdiv overlapArea circle2Area) (some 100)))

/-- NaN-tracking version of `CircleUtils.calculateCircleOverlap` (source
lines 29-65). -/
noncomputable def calculateCircleOverlapJS
    (center1Lat center1Lon radius1 center2Lat center2Lon radius2 : JNum) : JNum :=
  overlapFromDistanceJS (getDistanceInMetersJS center1Lat center1Lon center2Lat center2Lon)
    radius1 radius2

/-- The polynomial under `area3`'s square root (source line 59), as a
function of the radii and the distance. -/
noncomputable def lensP (r1 r2 d : ℝ) : ℝ :=
  (-d + r1 + r2) * (d + r1 - r2) * (d - r1 + r2) * (d + r1 + r2)

/-- The lens-formula value of the partial-overlap branch (source lines
53-61) as a function of the distance, used to reason about branch 3:
`r1² acos(u1) + r2² acos(u2) − 0.5 √(lensP)`. -/
noncomputable def lensArea (r1 r2 d : ℝ) : ℝ :=
  r1 * r1 * arccos ((d * d + r1 * r1 - r2 * r2) / (2 * d * r1)) +
    r2 * r2 * arccos ((d * d + r2 * r2 - r1 * r1) / (2 * d * r2)) -
    0.5 * Real.sqrt ((-d + r1 + r2) * (d + r1 - r2) * (d - r1 + r2) * (d + r1 + r2))

/-! ### Basic facts about the distance function -/

/-- The haversine intermediate is symmetric in the two points. -/
theorem havA_comm (lat1 lon1 lat2 lon2 : ℝ) :
    havA lat1 lon1 lat2 lon2 = havA lat2 lon2 lat1 lon1 := by
  unfold havA deg2rad
  rw [show (lat1 - lat2) * (π / 180) / 2 = -((lat2 - lat1) * (π / 180) / 2) by ring,
    show (lon1 - lon2) * (π / 180) / 2 = -((lon2 - lon1) * (π / 180) / 2) by ring,
    Real.sin_neg, Real.sin_neg]
  ring

/-- The distance of a point to itself is zero. -/
theorem getDistanceInMeters_self (lat lon : ℝ) : getDistanceInMeters lat lon lat lon = 0 := by
  have hA : havA lat lon lat lon = 0 := by
    unfold havA deg2rad
    simp
  unfold getDistanceInMeters
  rw [hA]
  norm_num [atan2, Real.sqrt_one]

/-! ### Claim theorems: the easy group -/

/-- Claim C8: `getDistanceInMeters` is symmetric in its two points
(proved for all real inputs, hence in particular for valid ones). -/
theorem C8_distance_symm (lat1 lon1 lat2 lon2 : ℝ) :
    getDistanceInMeters lat1 lon1 lat2 lon2 = getDistanceInMeters lat2 lon2 lat1 lon1 := by
  unfold getDistanceInMeters
  rw [havA_comm]

/-- Claim C6: `GeoUtils.determineStatus` maps distance, the same-network
hint and the threshold exactly as specified: present when `d ≤ t`, present
when both WiFi values are the campus SSID and `d ≤ 50`, absent when
`d > 50`, pending otherwise; with the source's default threshold 30 the
concrete inputs 25 / 45-with-hint / 60 / 35-without-hint give
present / present / absent / pending. -/
theorem C6_determineStatus_policy :
    (∀ (d t : ℝ) (w1 w2 : Option String),
      (determineStatus d w1 w2 t = LocStatus.present ↔
        d ≤ t ∨ (w1 = some campusWifi ∧ w2 = some campusWifi ∧ d ≤ 50)) ∧
      (determineStatus d w1 w2 t = LocStatus.absent ↔
        ¬d ≤ t ∧ ¬(w1 = some campusWifi ∧ w2 = some campusWifi ∧ d ≤ 50) ∧ 50 < d) ∧
      (determineStatus d w1 w2 t = LocStatus.pending ↔
        ¬d ≤ t ∧ ¬(w1 = some campusWifi ∧ w2 = some campusWifi ∧ d ≤ 50) ∧ ¬50 < d)) ∧
    determineStatus 25 none none 30 = LocStatus.present ∧
    determineStatus 45 (some campusWifi) (some campusWifi) 30 = LocStatus.present ∧
    determineStatus 60 (some campusWifi) (some campusWifi) 30 = LocStatus.absent ∧
    determineStatus 35 none none 30 = LocStatus.pending := by
  refine ⟨fun d t w1 w2 => ?_, ?_, ?_, ?_, ?_⟩
  · unfold determineStatus
    split_ifs with h1 h2 h3 <;> refine ⟨?_, ?_, ?_⟩ <;> simp_all
  · unfold determineStatus
    rw [if_pos (by norm_num)]
  · unfold determineStatus
    rw [if_neg (by norm_num), if_pos ⟨rfl, rfl, by norm_num⟩]
  · unfold determineStatus
    rw [if_neg (by norm_num), if_neg (by norm_num), if_pos (by norm_num)]
  · unfold determineStatus
    rw [if_neg (by norm_num), if_neg (by simp), if_neg (by norm_num)]

/-- Claim C10: the roster membership test and the name lookup agree:
`isStudentInList` returns `true` exactly when `getStudentName` returns a
name (both use the same normalized comparison). -/
theorem C10_member_iff_name (s : String) (l : List Student) :
    isStudentInList s l = true ↔ getStudentName s l ≠ none := by
  unfold isStudentInList getStudentName
  cases hf : l.find? (fun st =>
      normalizeReg st.registration_number == normalizeReg s) with
  | none =>
    simp only [List.any_eq_true]
    constructor
    · rintro ⟨st, hmem, hp⟩
      exact absurd hp (by simpa using List.find?_eq_none.mp hf st hmem)
    · intro h
      exact absurd rfl h
  | some st =>
    simp only [List.any_eq_true]
    constructor
    · intro _
      simp
    · intro _
      have hp := List.find?_some hf
      have hm := List.mem_of_find?_eq_some hf
      exact ⟨st, hm, hp⟩

/-- Claim C4 counterexample: two identical circles of radius 0 (a valid
center and radius) get coverage 0, not 100: with `d = 0` and
`r1 + r2 = 0` the no-overlap branch `d ≥ r1 + r2` fires first. -/
theorem C4_counterexample :
    calculateCircleOverlap 0 0 0 0 0 0 = 0 ∧ calculateCircleOverlap 0 0 0 0 0 0 ≠ 100 := by
  have h0 : calculateCircleOverlap 0 0 0 0 0 0 = 0 := by
    unfold calculateCircleOverlap
    rw [getDistanceInMeters_self]
    unfold overlapFromDistance
    rw [if_pos (by norm_num)]
  exact ⟨h0, by rw [h0]; norm_num⟩

/-- Claim C4 (amended): two identical circles with *positive* radius have
coverage exactly 100, for every center point. -/
theorem C4_identical_circles (lat lon r : ℝ) (hr : 0 < r) :
    calculateCircleOverlap lat lon r lat lon r = 100 := by
  unfold calculateCircleOverlap
  rw [getDistanceInMeters_self]
  unfold overlapFromDistance
  rw [if_neg (by push_neg; linarith), if_pos (by simp)]
  rw [min_self, div_self (by positivity)]
  norm_num

/-- Claim C4 witness: the amended theorem at center (2,3), radius 5. -/
theorem C4_witness : calculateCircleOverlap 2 3 5 2 3 5 = 100 :=
  C4_identical_circles 2 3 5 (by norm_num)

/-- Claim C2: in the containment branch (`d ≤ |r1 − r2|`, no-overlap branch
not taken) the coverage is `π·min(r1,r2)² / (π·r2²) · 100`; for `0 < r2 ≤ r1`
(claimant inside anchor) this is 100, for `0 < r1 ≤ r2` it is
`(r1/r2)²·100`; concretely, anchor (0,0) radius 15 and claimant (0,0)
radius 6 give coverage 100 and status present. -/
theorem C2_containment_branch :
    (∀ d r1 r2 : ℝ, ¬d ≥ r1 + r2 → d ≤ |r1 - r2| →
      overlapFromDistance d r1 r2 = π * min r1 r2 * min r1 r2 / (π * r2 * r2) * 100 ∧
      (0 < r2 → r2 ≤ r1 → overlapFromDistance d r1 r2 = 100) ∧
      (0 < r2 → r1 ≤ r2 → overlapFromDistance d r1 r2 = (r1 / r2) ^ 2 * 100)) ∧
    calculateCircleOverlap 0 0 15 0 0 6 = 100 ∧
    determineAttendanceStatus (calculateCircleOverlap 0 0 15 0 0 6) =
      AttendanceStatus.present := by
  have hmain : ∀ d r1 r2 : ℝ, ¬d ≥ r1 + r2 → d ≤ |r1 - r2| →
      overlapFromDistance d r1 r2 = π * min r1 r2 * min r1 r2 / (π * r2 * r2) * 100 := by
    intro d r1 r2 h1 h2
    unfold overlapFromDistance
    rw [if_neg h1, if_pos h2]
  refine ⟨fun d r1 r2 h1 h2 => ⟨hmain d r1 r2 h1 h2, ?_, ?_⟩, ?_, ?_⟩
  · intro hr2 hle
    rw [hmain d r1 r2 h1 h2, min_eq_right hle, div_self (by positivity)]
    norm_num
  · intro hr2 hle
    rw [hmain d r1 r2 h1 h2, min_eq_left hle]
    have hr2' : r2 ≠ 0 := ne_of_gt hr2
    field_simp
    ring
  · unfold calculateCircleOverlap
    rw [getDistanceInMeters_self]
    unfold overlapFromDistance
    rw [if_neg (by norm_num), if_pos (by rw [show (15:ℝ) - 6 = 9 by norm_num]; simp)]
    rw [show min (15:ℝ) 6 = 6 by norm_num, div_self (by positivity)]
    norm_num
  · have h100 : calculateCircleOverlap 0 0 15 0 0 6 = 100 := by
      unfold calculateCircleOverlap
      rw [getDistanceInMeters_self]
      unfold overlapFromDistance
      rw [if_neg (by norm_num), if_pos (by rw [show (15:ℝ) - 6 = 9 by norm_num]; simp)]
      rw [show min (15:ℝ) 6 = 6 by norm_num, div_self (by positivity)]
      norm_num
    rw [h100]
    unfold determineAttendanceStatus
    rw [if_pos (by norm_num)]

/-- Claim C2 witness: the containment branch at `d = 0`, `r1 = 15`,
`r2 = 6` gives coverage 100. -/
theorem C2_witness : overlapFromDistance 0 15 6 = 100 :=
  (C2_containment_branch.1 0 15 6 (by norm_num)
    (by rw [show (15:ℝ) - 6 = 9 by norm_num]; simp)).2.1 (by norm_num) (by norm_num)

/-- Claim C3: whenever the computed center distance is at least `r1 + r2`,
the coverage is exactly 0 and the status is proxy. -/
theorem C3_no_overlap (lat1 lon1 r1 lat2 lon2 r2 : ℝ)
    (h : getDistanceInMeters lat1 lon1 lat2 lon2 ≥ r1 + r2) :
    calculateCircleOverlap lat1 lon1 r1 lat2 lon2 r2 = 0 ∧
    determineAttendanceStatus (calculateCircleOverlap lat1 lon1 r1 lat2 lon2 r2) =
      AttendanceStatus.proxy := by
  have h0 : calculateCircleOverlap lat1 lon1 r1 lat2 lon2 r2 = 0 := by
    unfold calculateCircleOverlap overlapFromDistance
    rw [if_pos h]
  refine ⟨h0, ?_⟩
  rw [h0]
  unfold determineAttendanceStatus
  rw [if_neg (by norm_num)]

/-- Two points on the equator 180 degrees of longitude apart are half the
Earth's circumference apart: `6371000·π` meters. -/
theorem getDistanceInMeters_equator_antipodal :
    getDistanceInMeters 0 0 0 180 = 6371000 * π := by
  have hA : havA 0 0 0 180 = 1 := by
    unfold havA deg2rad
    norm_num
    rw [show (180:ℝ) * (π / 180) / 2 = π / 2 by ring]
    simp
  unfold getDistanceInMeters
  rw [hA]
  norm_num [atan2, Real.sqrt_one]
  ring

/-- Claim C3 witness: an anchor of radius 15 and a claimant of radius 6
whose centers are far apart (half the Earth apart, hence ≥ 21 m) get
coverage 0 and status proxy. -/
theorem C3_witness :
    calculateCircleOverlap 0 0 15 0 180 6 = 0 ∧
    determineAttendanceStatus (calculateCircleOverlap 0 0 15 0 180 6) =
      AttendanceStatus.proxy :=
  C3_no_overlap 0 0 15 0 180 6
    (by rw [getDistanceInMeters_equator_antipodal]; nlinarith [Real.pi_gt_three])

/-! ### Range facts about the haversine intermediate -/

/-- A latitude within ±90 degrees has nonnegative cosine in radians. -/
theorem cos_deg2rad_nonneg {lat : ℝ} (h : |lat| ≤ 90) : 0 ≤ cos (deg2rad lat) := by
  rw [abs_le] at h
  refine Real.cos_nonneg_of_mem_Icc (Set.mem_Icc.mpr ⟨?_, ?_⟩) <;> unfold deg2rad
  · nlinarith [mul_nonneg (show (0:ℝ) ≤ lat + 90 by linarith) Real.pi_pos.le]
  · nlinarith [mul_nonneg (show (0:ℝ) ≤ 90 - lat by linarith) Real.pi_pos.le]

/-- A latitude strictly within ±90 degrees has positive cosine in radians. -/
theorem cos_deg2rad_pos {lat : ℝ} (h : |lat| < 90) : 0 < cos (deg2rad lat) := by
  rw [abs_lt] at h
  refine Real.cos_pos_of_mem_Ioo (Set.mem_Ioo.mpr ⟨?_, ?_⟩) <;> unfold deg2rad
  · nlinarith [mul_pos (show (0:ℝ) < lat + 90 by linarith) Real.pi_pos]
  · nlinarith [mul_pos (show (0:ℝ) < 90 - lat by linarith) Real.pi_pos]

/-- For valid latitudes the haversine intermediate is nonnegative. -/
theorem havA_nonneg {lat1 lat2 : ℝ} (lon1 lon2 : ℝ) (h1 : |lat1| ≤ 90) (h2 : |lat2| ≤ 90) :
    0 ≤ havA lat1 lon1 lat2 lon2 := by
  unfold havA
  nlinarith [mul_self_nonneg (sin (deg2rad (lat2 - lat1) / 2)),
    mul_nonneg (mul_nonneg (cos_deg2rad_nonneg h1) (cos_deg2rad_nonneg h2))
      (mul_self_nonneg (sin (deg2rad (lon2 - lon1) / 2)))]

/-- Trigonometric core of the `a ≤ 1` bound:
`sin²((b−a)/2) + cos a · cos b · sin² y ≤ 1` when both cosines are
nonnegative. -/
theorem hav_bound (a b y : ℝ) (ha : 0 ≤ cos a) (hb : 0 ≤ cos b) :
    sin ((b - a) / 2) * sin ((b - a) / 2) + cos a * cos b * sin y * sin y ≤ 1 := by
  have h1 : sin ((b - a) / 2) * sin ((b - a) / 2) + cos ((b - a) / 2) * cos ((b - a) / 2) = 1 := by
    nlinarith [Real.sin_sq_add_cos_sq ((b - a) / 2)]
  have h2 : cos ((b - a) / 2) * cos ((b - a) / 2) = 1 / 2 + cos (b - a) / 2 := by
    have h := Real.cos_sq ((b - a) / 2)
    rw [show 2 * ((b - a) / 2) = b - a by ring] at h
    nlinarith [h]
  have h3 : 2 * (cos a * cos b) = cos (a - b) + cos (a + b) := by
    rw [Real.cos_sub, Real.cos_add]; ring
  have h4 : cos (a + b) ≤ 1 := Real.cos_le_one _
  have h5 : cos (a - b) = cos (b - a) := by rw [show a - b = -(b - a) by ring, Real.cos_neg]
  have h6 : sin y * sin y ≤ 1 := by nlinarith [Real.sin_sq_le_one y]
  have h8 : 0 ≤ cos a * cos b := mul_nonneg ha hb
  nlinarith [mul_le_of_le_one_right h8 h6]

/-- For valid latitudes the haversine intermediate is at most 1. -/
theorem havA_le_one {lat1 lat2 : ℝ} (lon1 lon2 : ℝ) (h1 : |lat1| ≤ 90) (h2 : |lat2| ≤ 90) :
    havA lat1 lon1 lat2 lon2 ≤ 1 := by
  unfold havA
  rw [show deg2rad (lat2 - lat1) / 2 = (deg2rad lat2 - deg2rad lat1) / 2 by
    unfold deg2rad; ring]
  exact hav_bound _ _ _ (cos_deg2rad_nonneg h1) (cos_deg2rad_nonneg h2)

/-- If `havA = 0`, the computed distance is zero. -/
theorem dist_zero_of_havA {lat1 lon1 lat2 lon2 : ℝ} (h : havA lat1 lon1 lat2 lon2 = 0) :
    getDistanceInMeters lat1 lon1 lat2 lon2 = 0 := by
  unfold getDistanceInMeters
  rw [h]
  norm_num [atan2, Real.sqrt_one]

/-! ### Claim C9: distance zero versus point equality -/

/-- Claim C9 counterexample: the two *distinct* valid points (90, 0) and
(90, 50) — both at the north pole — have distance exactly 0, refuting
"distance is 0 only if the two points coincide". -/
theorem C9_counterexample :
    getDistanceInMeters 90 0 90 50 = 0 ∧ (0 : ℝ) ≠ 50 := by
  refine ⟨?_, by norm_num⟩
  apply dist_zero_of_havA
  unfold havA deg2rad
  rw [show (90 : ℝ) * (π / 180) = π / 2 by ring]
  norm_num [Real.cos_pi_div_two]

/-- Helper: `atan2 (√a) (√(1−a)) = 0` forces `a = 0` when `0 ≤ a`. -/
theorem atan2_sqrt_eq_zero {a : ℝ} (ha : 0 ≤ a)
    (h : atan2 (Real.sqrt a) (Real.sqrt (1 - a)) = 0) : a = 0 := by
  by_cases hx : 0 < Real.sqrt (1 - a)
  · rw [atan2, if_pos hx] at h
    have hdiv := Real.arctan_eq_zero_iff.mp h
    rcases div_eq_zero_iff.mp hdiv with h0 | h0
    · exact le_antisymm (Real.sqrt_eq_zero'.mp h0) ha
    · exact absurd h0 (ne_of_gt hx)
  · have hx0 : Real.sqrt (1 - a) = 0 := le_antisymm (not_lt.mp hx) (Real.sqrt_nonneg _)
    by_cases hy : 0 < Real.sqrt a
    · rw [hx0] at h
      unfold atan2 at h
      norm_num at h
      rw [if_pos (Real.sqrt_pos.mp hy)] at h
      have := Real.pi_pos
      linarith
    · have h0 : Real.sqrt a = 0 := le_antisymm (not_lt.mp hy) (Real.sqrt_nonneg _)
      exact le_antisymm (Real.sqrt_eq_zero'.mp h0) ha

/-- Helper: a degree value strictly inside ±360 maps under `deg2rad (·) / 2`
strictly inside ±π. -/
theorem deg2rad_half_range {u : ℝ} (h1 : -360 < u) (h2 : u < 360) :
    -π < deg2rad u / 2 ∧ deg2rad u / 2 < π := by
  unfold deg2rad
  constructor
  · nlinarith [mul_pos (show (0:ℝ) < u + 360 by linarith) Real.pi_pos]
  · nlinarith [mul_pos (show (0:ℝ) < 360 - u by linarith) Real.pi_pos]

/-- Claim C9 (amended): `getDistanceInMeters p p = 0` for every point, and
for points with latitude strictly inside ±90 and longitude in (−180, 180]
the distance is 0 **iff** the two coordinate pairs coincide.  (At the poles
and at the ±180 longitude seam, distinct pairs can have distance 0, as the
counterexample shows.) -/
theorem C9_zero_iff :
    (∀ lat lon : ℝ, getDistanceInMeters lat lon lat lon = 0) ∧
    (∀ lat1 lon1 lat2 lon2 : ℝ, |lat1| < 90 → |lat2| < 90 →
      -180 < lon1 → lon1 ≤ 180 → -180 < lon2 → lon2 ≤ 180 →
      (getDistanceInMeters lat1 lon1 lat2 lon2 = 0 ↔ lat1 = lat2 ∧ lon1 = lon2)) := by
  refine ⟨fun lat lon => getDistanceInMeters_self lat lon, ?_⟩
  intro lat1 lon1 lat2 lon2 hl1 hl2 ho1 ho1' ho2 ho2'
  constructor
  · intro h
    have ha0 : 0 ≤ havA lat1 lon1 lat2 lon2 := havA_nonneg lon1 lon2 hl1.le hl2.le
    have hatan : atan2 (Real.sqrt (havA lat1 lon1 lat2 lon2))
        (Real.sqrt (1 - havA lat1 lon1 lat2 lon2)) = 0 := by
      unfold getDistanceInMeters at h
      linarith
    have hA : havA lat1 lon1 lat2 lon2 = 0 := atan2_sqrt_eq_zero ha0 hatan
    have hc1 : 0 < cos (deg2rad lat1) := cos_deg2rad_pos hl1
    have hc2 : 0 < cos (deg2rad lat2) := cos_deg2rad_pos hl2
    unfold havA at hA
    have hs1 : sin (deg2rad (lat2 - lat1) / 2) * sin (deg2rad (lat2 - lat1) / 2) = 0 := by
      nlinarith [mul_self_nonneg (sin (deg2rad (lat2 - lat1) / 2)),
        mul_nonneg (mul_nonneg hc1.le hc2.le)
          (mul_self_nonneg (sin (deg2rad (lon2 - lon1) / 2)))]
    have hs2 : sin (deg2rad (lon2 - lon1) / 2) * sin (deg2rad (lon2 - lon1) / 2) = 0 := by
      have hprod : (cos (deg2rad lat1) * cos (deg2rad lat2)) *
          (sin (deg2rad (lon2 - lon1) / 2) * sin (deg2rad (lon2 - lon1) / 2)) = 0 := by
        nlinarith [mul_self_nonneg (sin (deg2rad (lat2 - lat1) / 2)),
          mul_nonneg (mul_nonneg hc1.le hc2.le)
            (mul_self_nonneg (sin (deg2rad (lon2 - lon1) / 2))), hA]
      rcases mul_eq_zero.mp hprod with h0 | h0
      · exact absurd h0 (ne_of_gt (mul_pos hc1 hc2))
      · exact h0
    have habs1 : |lat1| < 90 := hl1
    have hrange1 := deg2rad_half_range (u := lat2 - lat1)
      (by rw [abs_lt] at hl1 hl2; linarith) (by rw [abs_lt] at hl1 hl2; linarith)
    have hrange2 := deg2rad_half_range (u := lon2 - lon1)
      (by linarith) (by linarith)
    have hlat : lat2 - lat1 = 0 := by
      have hz := (Real.sin_eq_zero_iff_of_lt_of_lt hrange1.1 hrange1.2).mp
        (mul_self_eq_zero.mp hs1)
      unfold deg2rad at hz
      have hz' : (lat2 - lat1) * π = 0 := by linarith
      rcases mul_eq_zero.mp hz' with h0 | h0
      · exact h0
      · exact absurd h0 Real.pi_ne_zero
    have hlon : lon2 - lon1 = 0 := by
      have hz := (Real.sin_eq_zero_iff_of_lt_of_lt hrange2.1 hrange2.2).mp
        (mul_self_eq_zero.mp hs2)
      unfold deg2rad at hz
      have hz' : (lon2 - lon1) * π = 0 := by linarith
      rcases mul_eq_zero.mp hz' with h0 | h0
      · exact h0
      · exact absurd h0 Real.pi_ne_zero
    exact ⟨by linarith, by linarith⟩
  · rintro ⟨rfl, rfl⟩
    exact getDistanceInMeters_self _ _

/-- Claim C9 witness: the amended iff applied at the concrete valid points
(0,0) and (0,0): the distance is 0 because the pairs coincide. -/
theorem C9_witness : getDistanceInMeters 0 0 0 0 = 0 :=
  (C9_zero_iff.2 0 0 0 0 (by norm_num) (by norm_num) (by norm_num) (by norm_num)
    (by norm_num) (by norm_num)).mpr ⟨rfl, rfl⟩

/-! Evaluation lemmas for the JS operations. -/

@[simp] theorem jadd_some (a b : ℝ) : jadd (some a) (some b) = some (a + b) := rfl
@[simp] theorem jadd_none_left (y : JNum) : jadd none y = none := by cases y <;> rfl
@[simp] theorem jadd_none_right (x : JNum) : jadd x none = none := by cases x <;> rfl
@[simp] theorem jsub_some (a b : ℝ) : jsub (some a) (some b) = some (a - b) := rfl
@[simp] theorem jsub_none_left (y : JNum) : jsub none y = none := by cases y <;> rfl
@[simp] theorem jsub_none_right (x : JNum) : jsub x none = none := by cases x <;> rfl
@[simp] theorem jmul_some (a b : ℝ) : jmul (some a) (some b) = some (a * b) := rfl
@[simp] theorem jmul_none_left (y : JNum) : jmul none y = none := by cases y <;> rfl
@[simp] theorem jmul_none_right (x : JNum) : jmul x none = none := by cases x <;> rfl
@[simp] theorem jdiv_none_left (y : JNum) : jdiv none y = none := by cases y <;> rfl
@[simp] theorem jdiv_none_right (x : JNum) : jdiv x none = none := by cases x <;> rfl
@[simp] theorem jneg_some (a : ℝ) : jneg (some a) = some (-a) := rfl
@[simp] theorem jneg_none : jneg none = none := rfl
@[simp] theorem jsin_some (a : ℝ) : jsin (some a) = some (sin a) := rfl
@[simp] theorem jsin_none : jsin none = none := rfl
@[simp] theorem jcos_some (a : ℝ) : jcos (some a) = some (cos a) := rfl
@[simp] theorem jcos_none : jcos none = none := rfl
@[simp] theorem jabs_some (a : ℝ) : jabs (some a) = some |a| := rfl
@[simp] theorem jabs_none : jabs none = none := rfl
@[simp] theorem jsqrt_none : jsqrt none = none := rfl
@[simp] theorem jacos_none : jacos none = none := rfl
@[simp] theorem jatan2_none_left (x : JNum) : jatan2 none x = none := by cases x <;> rfl
@[simp] theorem jatan2_none_right (y : JNum) : jatan2 y none = none := by cases y <;> rfl
@[simp] theorem jatan2_some (b a : ℝ) : jatan2 (some b) (some a) = some (atan2 b a) := rfl
@[simp] theorem jmin_some (a b : ℝ) : jmin (some a) (some b) = some (min a b) := rfl
@[simp] theorem jmin_none_left (y : JNum) : jmin none y = none := by cases y <;> rfl
@[simp] theorem jmin_none_right (x : JNum) : jmin x none = none := by cases x <;> rfl
@[simp] theorem jmax_some (a b : ℝ) : jmax (some a) (some b) = some (max a b) := rfl
@[simp] theorem jmax_none_left (y : JNum) : jmax none y = none := by cases y <;> rfl
@[simp] theorem jmax_none_right (x : JNum) : jmax x none = none := by cases x <;> rfl
@[simp] theorem jge_none_left (y : JNum) : jge none y = false := by cases y <;> rfl
@[simp] theorem jge_none_right (x : JNum) : jge x none = false := by cases x <;> rfl
@[simp] theorem jle_none_left (y : JNum) : jle none y = false := by cases y <;> rfl
@[simp] theorem jle_none_right (x : JNum) : jle x none = false := by cases x <;> rfl

theorem jdiv_some (a b : ℝ) (h : b ≠ 0) : jdiv (some a) (some b) = some (a / b) := by
  simp [jdiv, h]

theorem jdiv_some_zero (a : ℝ) : jdiv (some a) (some 0) = none := by
  simp [jdiv]

theorem jsqrt_some (a : ℝ) (h : 0 ≤ a) : jsqrt (some a) = some (Real.sqrt a) := by
  simp [jsqrt, not_lt.mpr h]

theorem jacos_some (a : ℝ) (h1 : -1 ≤ a) (h2 : a ≤ 1) : jacos (some a) = some (arccos a) := by
  simp [jacos, not_lt.mpr h1, not_lt.mpr h2]

theorem jge_some_true {a b : ℝ} (h : b ≤ a) : jge (some a) (some b) = true := by
  simp [jge, h]

theorem jge_some_false {a b : ℝ} (h : ¬b ≤ a) : jge (some a) (some b) = false := by
  simp [jge, h]

theorem jle_some_true {a b : ℝ} (h : a ≤ b) : jle (some a) (some b) = true := by
  simp [jle, h]

theorem jle_some_false {a b : ℝ} (h : ¬a ≤ b) : jle (some a) (some b) = false := by
  simp [jle, h]

/-! ### Agreement of the NaN-tracking model with the real model -/

theorem havAJS_some (lat1 lon1 lat2 lon2 : ℝ) :
    havAJS (some lat1) (some lon1) (some lat2) (some lon2) =
      some (havA lat1 lon1 lat2 lon2) := by
  unfold havAJS havA deg2rad
  have hdiv1 : jdiv (jmul (jsub (some lat2) (some lat1)) (some (π / 180))) (some 2) =
      some ((lat2 - lat1) * (π / 180) / 2) := by
    rw [jsub_some, jmul_some, jdiv_some _ _ (by norm_num)]
  have hdiv2 : jdiv (jmul (jsub (some lon2) (some lon1)) (some (π / 180))) (some 2) =
      some ((lon2 - lon1) * (π / 180) / 2) := by
    rw [jsub_some, jmul_some, jdiv_some _ _ (by norm_num)]
  simp only [hdiv1, hdiv2, jsin_some, jcos_some, jmul_some, jadd_some]

theorem getDistanceInMetersJS_eq (lat1 lon1 lat2 lon2 : ℝ)
    (h1 : |lat1| ≤ 90) (h2 : |lat2| ≤ 90) :
    getDistanceInMetersJS (some lat1) (some lon1) (some lat2) (some lon2) =
      some (getDistanceInMeters lat1 lon1 lat2 lon2) := by
  have ha0 := havA_nonneg lon1 lon2 h1 h2
  have ha1 : (0:ℝ) ≤ 1 - havA lat1 lon1 lat2 lon2 := by
    linarith [havA_le_one lon1 lon2 h1 h2]
  unfold getDistanceInMetersJS getDistanceInMeters
  rw [havAJS_some, jsub_some, jsqrt_some _ ha0, jsqrt_some _ ha1, jatan2_some,
    jmul_some, jmul_some]

/-- In the strict partial-overlap regime all four factors of `lensP` are
positive. -/
theorem lensP_pos {r1 r2 d : ℝ} (hr1 : 0 < r1) (hr2 : 0 < r2)
    (h1 : |r1 - r2| < d) (h2 : d < r1 + r2) : 0 < lensP r1 r2 d := by
  have hd0 : 0 < d := lt_of_le_of_lt (abs_nonneg _) h1
  have habs := abs_lt.mp h1
  unfold lensP
  have f1 : (0:ℝ) < -d + r1 + r2 := by linarith
  have f2 : (0:ℝ) < d + r1 - r2 := by linarith
  have f3 : (0:ℝ) < d - r1 + r2 := by linarith
  have f4 : (0:ℝ) < d + r1 + r2 := by linarith
  exact mul_pos (mul_pos (mul_pos f1 f2) f3) f4

/-- In the strict partial-overlap regime the first `acos` argument lies
strictly inside (−1, 1). -/
theorem u_bounds (d r1 r2 : ℝ) (hd0 : 0 < d) (hr1 : 0 < r1) (hr2 : 0 < r2)
    (h1 : |r1 - r2| < d) (h2 : d < r1 + r2) :
    -1 < (d * d + r1 * r1 - r2 * r2) / (2 * d * r1) ∧
    (d * d + r1 * r1 - r2 * r2) / (2 * d * r1) < 1 := by
  have hden : (0:ℝ) < 2 * d * r1 := by positivity
  have habs := abs_lt.mp h1
  constructor
  · rw [lt_div_iff₀ hden]
    nlinarith [mul_pos (show (0:ℝ) < d + r1 - r2 by linarith)
      (show (0:ℝ) < d + r1 + r2 by linarith)]
  · rw [div_lt_one hden]
    nlinarith [mul_pos (show (0:ℝ) < r2 - (d - r1) by linarith)
      (show (0:ℝ) < r2 + (d - r1) by linarith)]

/-- On finite inputs with a positive claimant radius, the NaN-tracking
overlap agrees with the real-valued overlap: no operation produces NaN. -/
theorem overlapFromDistanceJS_eq (d r1 r2 : ℝ) (hr2 : 0 < r2) :
    overlapFromDistanceJS (some d) (some r1) (some r2) =
      some (overlapFromDistance d r1 r2) := by
  unfold overlapFromDistanceJS overlapFromDistance
  rcases le_or_lt (r1 + r2) d with hc1 | hc1
  · rw [jadd_some, if_pos (jge_some_true hc1), if_pos hc1]
  · have hnc1 : ¬d ≥ r1 + r2 := not_le.mpr hc1
    rw [jadd_some, if_neg (by simp [jge_some_false hnc1]), if_neg hnc1, jsub_some, jabs_some]
    rcases le_or_lt d |r1 - r2| with hc2 | hc2
    · rw [if_pos (jle_some_true hc2), if_pos hc2]
      rw [jmin_some, jmul_some, jmul_some, jmul_some, jmul_some,
        jdiv_some _ _ (ne_of_gt (by positivity : (0:ℝ) < π * r2 * r2)), jmul_some]
    · have hnc2 : ¬d ≤ |r1 - r2| := not_le.mpr hc2
      rw [if_neg (by simp [jle_some_false hnc2]), if_neg hnc2]
      have hd0 : 0 < d := lt_of_le_of_lt (abs_nonneg _) hc2
      have hr1 : 0 < r1 := by
        have habs := abs_lt.mp hc2
        linarith
      have hu1 := u_bounds d r1 r2 hd0 hr1 hr2 hc2 hc1
      have hu2 := u_bounds d r2 r1 hd0 hr2 hr1 (by rwa [abs_sub_comm] at hc2) (by linarith)
      have hP := lensP_pos hr1 hr2 hc2 hc1
      unfold lensP at hP
      have e1 := jdiv_some (d * d + r1 * r1 - r2 * r2) (2 * d * r1)
        (ne_of_gt (by positivity))
      have e2 := jdiv_some (d * d + r2 * r2 - r1 * r1) (2 * d * r2)
        (ne_of_gt (by positivity))
      have e3 := jacos_some ((d * d + r1 * r1 - r2 * r2) / (2 * d * r1)) hu1.1.le hu1.2.le
      have e4 := jacos_some ((d * d + r2 * r2 - r1 * r1) / (2 * d * r2)) hu2.1.le hu2.2.le
      have e5 := jsqrt_some
        ((-d + r1 + r2) * (d + r1 - r2) * (d - r1 + r2) * (d + r1 + r2)) hP.le
      have e6 := jdiv_some
        (r1 * r1 * arccos ((d * d + r1 * r1 - r2 * r2) / (2 * d * r1)) +
          r2 * r2 * arccos ((d * d + r2 * r2 - r1 * r1) / (2 * d * r2)) -
          0.5 * Real.sqrt ((-d + r1 + r2) * (d + r1 - r2) * (d - r1 + r2) * (d + r1 + r2)))
        (π * r2 * r2) (ne_of_gt (by positivity))
      simp only [jmul_some, jadd_some, jsub_some, jneg_some, e1, e2, e3, e4, e5, e6,
        jmin_some, jmax_some]

/-! ### Range of the overlap percentage -/

/-- With nonnegative radii the overlap percentage is never negative. -/
theorem overlapFromDistance_nonneg (d : ℝ) {r1 r2 : ℝ} (hr1 : 0 ≤ r1) (hr2 : 0 ≤ r2) :
    0 ≤ overlapFromDistance d r1 r2 := by
  unfold overlapFromDistance
  split_ifs with h1 h2
  · exact le_refl 0
  · have hm : 0 ≤ min r1 r2 := le_min hr1 hr2
    have hnum : 0 ≤ π * min r1 r2 * min r1 r2 :=
      mul_nonneg (mul_nonneg Real.pi_pos.le hm) hm
    have hden : 0 ≤ π * r2 * r2 := mul_nonneg (mul_nonneg Real.pi_pos.le hr2) hr2
    exact mul_nonneg (div_nonneg hnum hden) (by norm_num)
  · exact le_max_left 0 _

/-- With `0 ≤ r1` and `0 < r2` the overlap percentage is at most 100. -/
theorem overlapFromDistance_le_100 (d : ℝ) {r1 r2 : ℝ} (hr1 : 0 ≤ r1) (hr2 : 0 < r2) :
    overlapFromDistance d r1 r2 ≤ 100 := by
  unfold overlapFromDistance
  split_ifs with h1 h2
  · norm_num
  · have hm0 : 0 ≤ min r1 r2 := le_min hr1 hr2.le
    have hm : min r1 r2 ≤ r2 := min_le_right _ _
    have hnum : π * min r1 r2 * min r1 r2 ≤ π * r2 * r2 := by
      nlinarith [Real.pi_pos, mul_le_mul hm hm hm0 hr2.le]
    have hden : (0:ℝ) < π * r2 * r2 := by positivity
    have hdiv : π * min r1 r2 * min r1 r2 / (π * r2 * r2) ≤ 1 := (div_le_one hden).mpr hnum
    nlinarith [hdiv]
  · exact max_le (by norm_num) (min_le_left _ _)

/-! ### Claim C1: totality and range of the overlap computation -/

/-- Claim C1 counterexample: the degenerate claimant radius `r2 = 0` with
centers coinciding (`d = 0 < r1 = 1`) drives the containment branch into
`0 / 0`, so the code returns NaN — not a point-in-circle result of 0 or
100. -/
theorem C1_counterexample :
    calculateCircleOverlapJS (some 0) (some 0) (some 1) (some 0) (some 0) (some 0) = none := by
  have hd : getDistanceInMetersJS (some 0) (some 0) (some 0) (some 0) = some 0 := by
    rw [getDistanceInMetersJS_eq 0 0 0 0 (by norm_num) (by norm_num),
      getDistanceInMeters_self]
  unfold calculateCircleOverlapJS
  rw [hd]
  unfold overlapFromDistanceJS
  rw [jadd_some, show (1:ℝ) + 0 = 1 by norm_num,
    if_neg (by simp [jge_some_false (show ¬(1:ℝ) ≤ 0 by norm_num)])]
  rw [jsub_some, jabs_some, if_pos (jle_some_true (abs_nonneg ((1:ℝ) - 0)))]
  rw [jmin_some, jmul_some, jmul_some, jmul_some, jmul_some,
    show (π:ℝ) * 0 * 0 = 0 by ring, jdiv_some_zero, jmul_none_left]

/-- Claim C1 (amended): for valid centers, anchor radius `r1 ≥ 0` and
claimant radius `r2 > 0`, the overlap computation never produces NaN (the
NaN-tracking evaluation returns exactly the real value) and the result is
in [0, 100]; an anchor radius `r1 = 0` falls into the 0-coverage branches.
(For `r2 = 0` with `d < r1` the code divides 0/0 and returns NaN, as the
counterexample shows.) -/
theorem C1_overlap_safe (lat1 lon1 r1 lat2 lon2 r2 : ℝ)
    (h1 : |lat1| ≤ 90) (_h2 : |lon1| ≤ 180) (h3 : |lat2| ≤ 90) (_h4 : |lon2| ≤ 180)
    (hr1 : 0 ≤ r1) (hr2 : 0 < r2) :
    calculateCircleOverlapJS (some lat1) (some lon1) (some r1) (some lat2) (some lon2)
      (some r2) = some (calculateCircleOverlap lat1 lon1 r1 lat2 lon2 r2) ∧
    0 ≤ calculateCircleOverlap lat1 lon1 r1 lat2 lon2 r2 ∧
    calculateCircleOverlap lat1 lon1 r1 lat2 lon2 r2 ≤ 100 := by
  refine ⟨?_, ?_, ?_⟩
  · unfold calculateCircleOverlapJS calculateCircleOverlap
    rw [getDistanceInMetersJS_eq lat1 lon1 lat2 lon2 h1 h3]
    exact overlapFromDistanceJS_eq _ r1 r2 hr2
  · exact overlapFromDistance_nonneg _ hr1 hr2.le
  · exact overlapFromDistance_le_100 _ hr1 hr2

/-- Claim C1 witness: the amended theorem at two unit circles centered at
the origin. -/
theorem C1_witness :
    calculateCircleOverlapJS (some 0) (some 0) (some 1) (some 0) (some 0) (some 1) =
      some (calculateCircleOverlap 0 0 1 0 0 1) ∧
    0 ≤ calculateCircleOverlap 0 0 1 0 0 1 ∧ calculateCircleOverlap 0 0 1 0 0 1 ≤ 100 :=
  C1_overlap_safe 0 0 1 0 0 1 (by norm_num) (by norm_num) (by norm_num) (by norm_num)
    (by norm_num) (by norm_num)

/-! ### Claim C5: no input validation, NaN propagation -/

/-- A NaN first coordinate propagates through the distance computation. -/
theorem getDistanceInMetersJS_nan (b c d : JNum) : getDistanceInMetersJS none b c d = none := by
  simp [getDistanceInMetersJS, havAJS]

/-- A NaN first coordinate propagates through the whole overlap
computation: both guards compare false against NaN and the lens branch is
NaN throughout. -/
theorem calculateCircleOverlapJS_nan (b r1 d e r2 : JNum) :
    calculateCircleOverlapJS none b r1 d e r2 = none := by
  unfold calculateCircleOverlapJS
  rw [getDistanceInMetersJS_nan]
  simp [overlapFromDistanceJS]

/-- Claim C5 counterexample: on invalid numeric input the engine does not
signal any error: a NaN latitude makes `getDistanceInMeters` return NaN
(a value, not an exception), and a negative radius makes
`calculateCircleOverlap` silently return the ordinary number
`2500/36 ≈ 69.4`. -/
theorem C5_counterexample :
    getDistanceInMetersJS none (some 0) (some 0) (some 0) = none ∧
    calculateCircleOverlap 0 0 (-5) 0 0 6 = 2500 / 36 := by
  refine ⟨getDistanceInMetersJS_nan _ _ _, ?_⟩
  unfold calculateCircleOverlap
  rw [getDistanceInMeters_self]
  unfold overlapFromDistance
  rw [if_neg (by norm_num), if_pos (abs_nonneg ((-5:ℝ) - 6)),
    min_eq_left (by norm_num : (-5:ℝ) ≤ 6)]
  rw [show (π:ℝ) * -5 * -5 = 25 * π by ring, show (π:ℝ) * 6 * 6 = 36 * π by ring]
  field_simp
  ring

/-- Claim C5 (amended): the engine performs no input validation and has no
`InvalidInputError`: a NaN input propagates to a NaN result from both
`getDistanceInMeters` and `calculateCircleOverlap`, and a negative anchor
radius produces an ordinary numeric coverage value via the containment
branch instead of failing. -/
theorem C5_no_validation :
    (∀ b c d : JNum, getDistanceInMetersJS none b c d = none) ∧
    (∀ b r1 d e r2 : JNum, calculateCircleOverlapJS none b r1 d e r2 = none) ∧
    (∀ r1 r2 : ℝ, r1 < 0 → 0 < r1 + r2 →
      calculateCircleOverlap 0 0 r1 0 0 r2 = π * r1 * r1 / (π * r2 * r2) * 100) := by
  refine ⟨getDistanceInMetersJS_nan, calculateCircleOverlapJS_nan, ?_⟩
  intro r1 r2 hneg hsum
  unfold calculateCircleOverlap
  rw [getDistanceInMeters_self]
  unfold overlapFromDistance
  rw [if_neg (by push_neg; linarith), if_pos (abs_nonneg (r1 - r2)),
    min_eq_left (by linarith)]

/-- Claim C5 witness: the amended theorem at concrete inputs, including
the negative radius −2. -/
theorem C5_witness :
    getDistanceInMetersJS none (some 1) (some 2) (some 3) = none ∧
    calculateCircleOverlapJS none (some 1) (some 2) (some 3) (some 4) (some 5) = none ∧
    calculateCircleOverlap 0 0 (-2) 0 0 6 = π * (-2) * (-2) / (π * 6 * 6) * 100 :=
  ⟨C5_no_validation.1 (some 1) (some 2) (some 3),
    C5_no_validation.2.1 (some 1) (some 2) (some 3) (some 4) (some 5),
    C5_no_validation.2.2 (-2) 6 (by norm_num) (by norm_num)⟩

/-! ### Claim C7: coverage is non-increasing in the center distance -/

theorem lensP_comm (r1 r2 d : ℝ) : lensP r2 r1 d = lensP r1 r2 d := by
  unfold lensP
  ring

/-- In the partial-overlap branch the code computes exactly the clamped,
normalized lens value. -/
theorem overlapFromDistance_eq_lens {d r1 r2 : ℝ} (h1 : ¬d ≥ r1 + r2) (h2 : ¬d ≤ |r1 - r2|) :
    overlapFromDistance d r1 r2 =
      max 0 (min 100 (lensArea r1 r2 d / (π * r2 * r2) * 100)) := by
  unfold overlapFromDistance lensArea
  rw [if_neg h1, if_neg h2]

/-- `√(1 − u₁²) = √(lensP)/(2 d r1)` for the first `acos` argument. -/
theorem sqrt_one_sub_u_sq {d r1 r2 : ℝ} (hd0 : 0 < d) (hr1 : 0 < r1)
    (hP : 0 ≤ lensP r1 r2 d) :
    Real.sqrt (1 - ((d * d + r1 * r1 - r2 * r2) / (2 * d * r1)) ^ 2) =
      Real.sqrt (lensP r1 r2 d) / (2 * d * r1) := by
  have hden : (0:ℝ) < 2 * d * r1 := by positivity
  rw [show 1 - ((d * d + r1 * r1 - r2 * r2) / (2 * d * r1)) ^ 2
      = lensP r1 r2 d / (2 * d * r1) ^ 2 by
    unfold lensP
    field_simp
    ring]
  rw [Real.sqrt_div hP, Real.sqrt_sq hden.le]

/-- The derivative of the lens value in the distance is `−√(lensP)/d` on
the open partial-overlap interval. -/
theorem lensArea_hasDerivAt {r1 r2 d : ℝ} (hr1 : 0 < r1) (hr2 : 0 < r2)
    (h1 : |r1 - r2| < d) (h2 : d < r1 + r2) :
    HasDerivAt (lensArea r1 r2) (-Real.sqrt (lensP r1 r2 d) / d) d := by
  have hd0 : 0 < d := lt_of_le_of_lt (abs_nonneg _) h1
  have hP := lensP_pos hr1 hr2 h1 h2
  have hs0 : 0 < Real.sqrt (lensP r1 r2 d) := Real.sqrt_pos.mpr hP
  have hu1 := u_bounds d r1 r2 hd0 hr1 hr2 h1 h2
  have hu2 := u_bounds d r2 r1 hd0 hr2 hr1 (by rwa [abs_sub_comm] at h1) (by linarith)
  have hdne : (d:ℝ) ≠ 0 := ne_of_gt hd0
  have hr1ne : (r1:ℝ) ≠ 0 := ne_of_gt hr1
  have hr2ne : (r2:ℝ) ≠ 0 := ne_of_gt hr2
  have hsne : Real.sqrt (lensP r1 r2 d) ≠ 0 := ne_of_gt hs0
  have hq1 : HasDerivAt (fun x : ℝ => (x * x + r1 * r1 - r2 * r2) / (2 * x * r1))
      ((d * d - r1 * r1 + r2 * r2) / (2 * d * d * r1)) d := by
    have hnum : HasDerivAt (fun x : ℝ => x * x + r1 * r1 - r2 * r2) (1 * d + d * 1) d :=
      (((hasDerivAt_id d).mul (hasDerivAt_id d)).add_const (r1 * r1)).sub_const (r2 * r2)
    have hden : HasDerivAt (fun x : ℝ => 2 * x * r1) (2 * 1 * r1) d :=
      ((hasDerivAt_id d).const_mul 2).mul_const r1
    have h := hnum.div hden (by positivity)
    convert h using 1
    field_simp
    ring
  have hq2 : HasDerivAt (fun x : ℝ => (x * x + r2 * r2 - r1 * r1) / (2 * x * r2))
      ((d * d - r2 * r2 + r1 * r1) / (2 * d * d * r2)) d := by
    have hnum : HasDerivAt (fun x : ℝ => x * x + r2 * r2 - r1 * r1) (1 * d + d * 1) d :=
      (((hasDerivAt_id d).mul (hasDerivAt_id d)).add_const (r2 * r2)).sub_const (r1 * r1)
    have hden : HasDerivAt (fun x : ℝ => 2 * x * r2) (2 * 1 * r2) d :=
      ((hasDerivAt_id d).const_mul 2).mul_const r2
    have h := hnum.div hden (by positivity)
    convert h using 1
    field_simp
    ring
  have harc1 : HasDerivAt
      (fun x : ℝ => arccos ((x * x + r1 * r1 - r2 * r2) / (2 * x * r1)))
      (-(1 / Real.sqrt (1 - ((d * d + r1 * r1 - r2 * r2) / (2 * d * r1)) ^ 2)) *
        ((d * d - r1 * r1 + r2 * r2) / (2 * d * d * r1))) d := by
    have h := HasDerivAt.comp d
      (Real.hasDerivAt_arccos (ne_of_gt hu1.1) (ne_of_lt hu1.2)) hq1
    exact h
  have harc2 : HasDerivAt
      (fun x : ℝ => arccos ((x * x + r2 * r2 - r1 * r1) / (2 * x * r2)))
      (-(1 / Real.sqrt (1 - ((d * d + r2 * r2 - r1 * r1) / (2 * d * r2)) ^ 2)) *
        ((d * d - r2 * r2 + r1 * r1) / (2 * d * d * r2))) d := by
    have h := HasDerivAt.comp d
      (Real.hasDerivAt_arccos (ne_of_gt hu2.1) (ne_of_lt hu2.2)) hq2
    exact h
  have hterm1 : HasDerivAt
      (fun x : ℝ => r1 * r1 * arccos ((x * x + r1 * r1 - r2 * r2) / (2 * x * r1)))
      (-(r1 * r1 * (d * d - r1 * r1 + r2 * r2)) / (d * Real.sqrt (lensP r1 r2 d))) d := by
    have h := harc1.const_mul (r1 * r1)
    convert h using 1
    rw [sqrt_one_sub_u_sq hd0 hr1 hP.le]
    field_simp
    ring
  have hterm2 : HasDerivAt
      (fun x : ℝ => r2 * r2 * arccos ((x * x + r2 * r2 - r1 * r1) / (2 * x * r2)))
      (-(r2 * r2 * (d * d - r2 * r2 + r1 * r1)) / (d * Real.sqrt (lensP r1 r2 d))) d := by
    have hs2eq : Real.sqrt (1 - ((d * d + r2 * r2 - r1 * r1) / (2 * d * r2)) ^ 2) =
        Real.sqrt (lensP r1 r2 d) / (2 * d * r2) := by
      rw [sqrt_one_sub_u_sq hd0 hr2 (by rw [lensP_comm]; exact hP.le), lensP_comm]
    have h := harc2.const_mul (r2 * r2)
    convert h using 1
    rw [hs2eq]
    field_simp
    ring
  have hpoly : HasDerivAt
      (fun x : ℝ => (-x + r1 + r2) * (x + r1 - r2) * (x - r1 + r2) * (x + r1 + r2))
      (4 * d * (r1 * r1 + r2 * r2) - 4 * (d * d * d)) d := by
    have f1 : HasDerivAt (fun x : ℝ => -x + r1 + r2) (-1) d :=
      (((hasDerivAt_id d).neg).add_const r1).add_const r2
    have f2 : HasDerivAt (fun x : ℝ => x + r1 - r2) 1 d :=
      ((hasDerivAt_id d).add_const r1).sub_const r2
    have f3 : HasDerivAt (fun x : ℝ => x - r1 + r2) 1 d :=
      ((hasDerivAt_id d).sub_const r1).add_const r2
    have f4 : HasDerivAt (fun x : ℝ => x + r1 + r2) 1 d :=
      ((hasDerivAt_id d).add_const r1).add_const r2
    have h := ((f1.mul f2).mul f3).mul f4
    convert h using 1
    ring
  have hsq3 : HasDerivAt
      (fun x : ℝ => Real.sqrt ((-x + r1 + r2) * (x + r1 - r2) * (x - r1 + r2) * (x + r1 + r2)))
      ((4 * d * (r1 * r1 + r2 * r2) - 4 * (d * d * d)) /
        (2 * Real.sqrt (lensP r1 r2 d))) d := by
    have hne : (-d + r1 + r2) * (d + r1 - r2) * (d - r1 + r2) * (d + r1 + r2) ≠ 0 := by
      unfold lensP at hP
      exact ne_of_gt hP
    have h := hpoly.sqrt hne
    convert h using 1
  have hterm3 : HasDerivAt
      (fun x : ℝ => 0.5 * Real.sqrt ((-x + r1 + r2) * (x + r1 - r2) * (x - r1 + r2) *
        (x + r1 + r2)))
      (d * (r1 * r1 + r2 * r2 - d * d) / Real.sqrt (lensP r1 r2 d)) d := by
    have h := hsq3.const_mul 0.5
    convert h using 1
    field_simp
    ring
  have htot := (hterm1.add hterm2).sub hterm3
  convert htot using 1
  have hsq2 : Real.sqrt (lensP r1 r2 d) ^ 2 = lensP r1 r2 d := Real.sq_sqrt hP.le
  have hsq4 : Real.sqrt (lensP r1 r2 d) ^ 4 = lensP r1 r2 d ^ 2 := by
    rw [show (4:ℕ) = 2 * 2 from rfl, pow_mul, hsq2]
  field_simp
  unfold lensP at hsq2 hsq4 ⊢
  linear_combination (d ^ 2 * ((-d + r1 + r2) * (d + r1 - r2) * (d - r1 + r2) *
    (d + r1 + r2))) * hsq2 - d ^ 2 * hsq4

/-- The lens value is continuous on the closed partial-overlap interval. -/
theorem lensArea_continuousOn {r1 r2 : ℝ} (hr1 : 0 < r1) (hr2 : 0 < r2) :
    ContinuousOn (lensArea r1 r2) (Set.Icc |r1 - r2| (r1 + r2)) := by
  rcases eq_or_ne r1 r2 with rfl | hne
  · have hF : Continuous (fun x : ℝ => 2 * (r1 * r1) * arccos (x / (2 * r1)) -
        0.5 * Real.sqrt ((-x + r1 + r1) * (x + r1 - r1) * (x - r1 + r1) * (x + r1 + r1))) := by
      have hc1 : Continuous fun x : ℝ => 2 * (r1 * r1) * arccos (x / (2 * r1)) :=
        continuous_const.mul (Real.continuous_arccos.comp (continuous_id.div_const _))
      have hc2 : Continuous fun x : ℝ =>
          0.5 * Real.sqrt ((-x + r1 + r1) * (x + r1 - r1) * (x - r1 + r1) * (x + r1 + r1)) := by
        apply continuous_const.mul
        apply Real.continuous_sqrt.comp
        fun_prop
      exact hc1.sub hc2
    apply hF.continuousOn.congr
    intro x hx
    unfold lensArea
    have harg : (x * x + r1 * r1 - r1 * r1) / (2 * x * r1) = x / (2 * r1) := by
      rcases eq_or_ne x 0 with rfl | hxne
      · simp
      · rw [show x * x + r1 * r1 - r1 * r1 = x * x by ring,
          show 2 * x * r1 = x * (2 * r1) by ring, mul_div_mul_left _ _ hxne]
    rw [harg]
    ring
  · have habs : 0 < |r1 - r2| := abs_pos.mpr (sub_ne_zero.mpr hne)
    apply ContinuousOn.sub
    · apply ContinuousOn.add
      · apply ContinuousOn.mul continuousOn_const
        apply Real.continuous_arccos.comp_continuousOn
        apply ContinuousOn.div
        · exact Continuous.continuousOn (by fun_prop)
        · exact Continuous.continuousOn (by fun_prop)
        · intro x hx
          have hx0 : 0 < x := lt_of_lt_of_le habs hx.1
          positivity
      · apply ContinuousOn.mul continuousOn_const
        apply Real.continuous_arccos.comp_continuousOn
        apply ContinuousOn.div
        · exact Continuous.continuousOn (by fun_prop)
        · exact Continuous.continuousOn (by fun_prop)
        · intro x hx
          have hx0 : 0 < x := lt_of_lt_of_le habs hx.1
          positivity
    · apply ContinuousOn.mul continuousOn_const
      apply Real.continuous_sqrt.comp_continuousOn
      exact Continuous.continuousOn (by fun_prop)

/-- The lens value is non-increasing in the distance on the closed
partial-overlap interval. -/
theorem lensArea_antitoneOn {r1 r2 : ℝ} (hr1 : 0 < r1) (hr2 : 0 < r2) :
    AntitoneOn (lensArea r1 r2) (Set.Icc |r1 - r2| (r1 + r2)) := by
  apply antitoneOn_of_deriv_nonpos (convex_Icc _ _) (lensArea_continuousOn hr1 hr2)
  · intro x hx
    rw [interior_Icc] at hx
    exact (lensArea_hasDerivAt hr1 hr2 hx.1 hx.2).differentiableAt.differentiableWithinAt
  · intro x hx
    rw [interior_Icc] at hx
    rw [(lensArea_hasDerivAt hr1 hr2 hx.1 hx.2).deriv]
    have hd0 : 0 < x := lt_of_le_of_lt (abs_nonneg _) hx.1
    exact div_nonpos_iff.mpr (Or.inr ⟨neg_nonpos.mpr (Real.sqrt_nonneg _), hd0.le⟩)

/-- At the inner endpoint `d = |r1 − r2|` the lens value equals the area
of the smaller disc (including the Lean-semantics `0/0 = 0` case
`r1 = r2`, where `arccos 0 = π/2` still gives `π r²`). -/
theorem lensArea_left {r1 r2 : ℝ} (hr1 : 0 < r1) (hr2 : 0 < r2) :
    lensArea r1 r2 |r1 - r2| = π * min r1 r2 * min r1 r2 := by
  rcases lt_trichotomy r1 r2 with h | h | h
  · rw [abs_of_neg (by linarith : r1 - r2 < 0), show -(r1 - r2) = r2 - r1 by ring]
    unfold lensArea
    have hd0 : (0:ℝ) < r2 - r1 := by linarith
    have hu1 : ((r2 - r1) * (r2 - r1) + r1 * r1 - r2 * r2) / (2 * (r2 - r1) * r1) = -1 := by
      rw [div_eq_iff (ne_of_gt (by positivity : (0:ℝ) < 2 * (r2 - r1) * r1))]
      ring
    have hu2 : ((r2 - r1) * (r2 - r1) + r2 * r2 - r1 * r1) / (2 * (r2 - r1) * r2) = 1 := by
      rw [div_eq_iff (ne_of_gt (by positivity : (0:ℝ) < 2 * (r2 - r1) * r2))]
      ring
    rw [hu1, hu2, Real.arccos_neg_one, Real.arccos_one]
    rw [show (-(r2 - r1) + r1 + r2) * ((r2 - r1) + r1 - r2) * ((r2 - r1) - r1 + r2) *
      ((r2 - r1) + r1 + r2) = 0 by ring]
    rw [Real.sqrt_zero, min_eq_left h.le]
    ring
  · subst h
    rw [sub_self, abs_zero]
    unfold lensArea
    rw [show (0:ℝ) * 0 + r1 * r1 - r1 * r1 = 0 by ring, show (2:ℝ) * 0 * r1 = 0 by ring,
      div_zero, Real.arccos_zero]
    rw [show (-(0:ℝ) + r1 + r1) * (0 + r1 - r1) * (0 - r1 + r1) * (0 + r1 + r1) = 0 by ring]
    rw [Real.sqrt_zero, min_self]
    ring
  · rw [abs_of_pos (by linarith : 0 < r1 - r2)]
    unfold lensArea
    have hd0 : (0:ℝ) < r1 - r2 := by linarith
    have hu1 : ((r1 - r2) * (r1 - r2) + r1 * r1 - r2 * r2) / (2 * (r1 - r2) * r1) = 1 := by
      rw [div_eq_iff (ne_of_gt (by positivity : (0:ℝ) < 2 * (r1 - r2) * r1))]
      ring
    have hu2 : ((r1 - r2) * (r1 - r2) + r2 * r2 - r1 * r1) / (2 * (r1 - r2) * r2) = -1 := by
      rw [div_eq_iff (ne_of_gt (by positivity : (0:ℝ) < 2 * (r1 - r2) * r2))]
      ring
    rw [hu1, hu2, Real.arccos_one, Real.arccos_neg_one]
    rw [show (-(r1 - r2) + r1 + r2) * ((r1 - r2) + r1 - r2) * ((r1 - r2) - r1 + r2) *
      ((r1 - r2) + r1 + r2) = 0 by ring]
    rw [Real.sqrt_zero, min_eq_right h.le]
    ring

/-- Claim C7: holding both radii fixed (nonnegative), the coverage computed
by the overlap branch logic is non-increasing as the center distance
grows. -/
theorem C7_coverage_antitone (r1 r2 d d' : ℝ) (hr1 : 0 ≤ r1) (hr2 : 0 ≤ r2)
    (_hd : 0 ≤ d) (hdd : d ≤ d') :
    overlapFromDistance d' r1 r2 ≤ overlapFromDistance d r1 r2 := by
  rcases le_or_lt (r1 + r2) d' with hb1 | hb1
  · have h0 : overlapFromDistance d' r1 r2 = 0 := by
      unfold overlapFromDistance
      rw [if_pos hb1]
    rw [h0]
    exact overlapFromDistance_nonneg d hr1 hr2
  · have hnb1 : ¬d' ≥ r1 + r2 := not_le.mpr hb1
    have hnd1 : ¬d ≥ r1 + r2 := not_le.mpr (lt_of_le_of_lt hdd hb1)
    rcases le_or_lt d' |r1 - r2| with hb2 | hb2
    · have hdb2 : d ≤ |r1 - r2| := le_trans hdd hb2
      unfold overlapFromDistance
      rw [if_neg hnb1, if_neg hnd1, if_pos hb2, if_pos hdb2]
    · have hr1p : 0 < r1 := by
        have habs := abs_lt.mp hb2
        linarith
      have hr2p : 0 < r2 := by
        have habs := abs_lt.mp hb2
        linarith
      have hanti := lensArea_antitoneOn hr1p hr2p
      have hmem' : d' ∈ Set.Icc |r1 - r2| (r1 + r2) := ⟨hb2.le, hb1.le⟩
      have hval' := overlapFromDistance_eq_lens hnb1 (not_le.mpr hb2)
      have hden : (0:ℝ) < π * r2 * r2 := by positivity
      rcases le_or_lt d |r1 - r2| with hb3 | hb3
      · have hvald : overlapFromDistance d r1 r2 =
            π * min r1 r2 * min r1 r2 / (π * r2 * r2) * 100 := by
          unfold overlapFromDistance
          rw [if_neg hnd1, if_pos hb3]
        have hlmem : |r1 - r2| ∈ Set.Icc |r1 - r2| (r1 + r2) :=
          ⟨le_refl _, abs_le.mpr ⟨by linarith, by linarith⟩⟩
        have hlen : lensArea r1 r2 d' ≤ lensArea r1 r2 |r1 - r2| :=
          hanti hlmem hmem' hb2.le
        rw [lensArea_left hr1p hr2p] at hlen
        rw [hval', hvald]
        have hm : (0:ℝ) ≤ min r1 r2 := le_min hr1 hr2
        have hc0 : (0:ℝ) ≤ π * min r1 r2 * min r1 r2 / (π * r2 * r2) * 100 :=
          mul_nonneg (div_nonneg (mul_nonneg (mul_nonneg Real.pi_pos.le hm) hm) hden.le)
            (by norm_num)
        have hL : lensArea r1 r2 d' / (π * r2 * r2) * 100 ≤
            π * min r1 r2 * min r1 r2 / (π * r2 * r2) * 100 :=
          mul_le_mul_of_nonneg_right ((div_le_div_iff_of_pos_right hden).mpr hlen) (by norm_num)
        exact max_le hc0 (le_trans (min_le_right _ _) hL)
      · have hmemd : d ∈ Set.Icc |r1 - r2| (r1 + r2) :=
          ⟨hb3.le, (lt_of_le_of_lt hdd hb1).le⟩
        have hvald := overlapFromDistance_eq_lens hnd1 (not_le.mpr hb3)
        have hlen : lensArea r1 r2 d' ≤ lensArea r1 r2 d := hanti hmemd hmem' hdd
        rw [hval', hvald]
        have hL : lensArea r1 r2 d' / (π * r2 * r2) * 100 ≤
            lensArea r1 r2 d / (π * r2 * r2) * 100 :=
          mul_le_mul_of_nonneg_right ((div_le_div_iff_of_pos_right hden).mpr hlen) (by norm_num)
        exact max_le_max (le_refl 0) (min_le_min (le_refl 100) hL)

/-- Claim C7 witness: unit radii, distance growing from 0 to 3. -/
theorem C7_witness : overlapFromDistance 3 1 1 ≤ overlapFromDistance 0 1 1 :=
  C7_coverage_antitone 1 1 0 3 (by norm_num) (by norm_num) (by norm_num) (by norm_num)
